import Mathlib

/-
Verification of the Review Workflow & Live Notification Engine
(frontend of the Athena assignment repository).

Shallow embedding of the client-side code:
  * lib/types.ts                                  — ExtractionStatus, record rows
  * lib/hooks/use-notifications.ts                — handleMessage, sendMessage,
    connect/onclose reconnection logic, option defaults
  * components/records/rejection-dialog.tsx       — handleReject
  * the batch-actions component (unnamed part)    — eligibleForApprove /
    eligibleForReject filters, handleBatchApprove, handleBatchReject
plus a model of the server-side batch endpoint written from the design
document (it is not part of the frontend sources).

Conventions of the embedding:
  * `JSON.parse` either yields a value or throws; an incoming wire message is
    therefore embedded as `Option Notification` (`none` = the parse threw and
    control jumped to the catch block).
  * The react-query cache is embedded as two entries (records / stats), each
    carrying its cached payload and an `invalidated` mark;
    `queryClient.invalidateQueries` sets the mark and never touches the payload.
  * Timers are abstracted away: a scheduled reconnect is a `pendingConnect`
    flag, and the run in which every connection attempt fails is the
    deterministic iteration of (connect guard; socket opens; close handler).
-/

/-- `ExtractionStatus` enum from lib/types.ts. -/
inductive ExtractionStatus
  | pending
  | approved
  | rejected
  | edited
  | exported
deriving DecidableEq, Repr

/-- The slice of an extraction record the reviewed claims need:
its `id` and its review `status` (lib/types.ts `ExtractionRecord`). -/
structure RecordRow where
  id : String
  status : ExtractionStatus
deriving DecidableEq, Repr

/-- Wire-level event shape from use-notifications.ts (`Notification` interface):
`{type, id, timestamp, data, message}`.  The `data` payload is an opaque
key/value object. -/
structure Notification where
  type : String
  id : String
  timestamp : String
  data : List (String × String)
  message : String
deriving DecidableEq, Repr

/-- One react-query cache entry: the cached payload (if any) and whether the
query has been marked stale (`invalidateQueries`). -/
structure CacheEntry where
  payload : Option (List (String × String))
  invalidated : Bool
deriving DecidableEq, Repr

/-- The two queries the notification handler touches:
`queryKey ["records"]` and `queryKey ["stats"]`. -/
structure QueryCache where
  records : CacheEntry
  stats : CacheEntry
deriving DecidableEq, Repr

/-- `queryClient.invalidateQueries({queryKey: ["records"]})`: marks the records
query stale; the cached payload is untouched. -/
def invalidateRecordsQuery (c : QueryCache) : QueryCache :=
  { c with records := { c.records with invalidated := true } }

/-- `queryClient.invalidateQueries({queryKey: ["stats"]})`. -/
def invalidateStatsQuery (c : QueryCache) : QueryCache :=
  { c with stats := { c.stats with invalidated := true } }

/-- Toast variants used by the components (`"default" | "destructive" |
"success"`; a toast call without a variant is the default variant). -/
inductive ToastVariant
  | default
  | destructive
  | success
deriving DecidableEq, Repr

/-- A toast emitted through `useToast`. -/
structure Toast where
  title : String
  description : String
  variant : ToastVariant
deriving DecidableEq, Repr

/-- `getToastVariant` from use-notifications.ts. -/
def getToastVariant (type : String) : ToastVariant :=
  match type with
  | "error" => .destructive
  | "record_rejected" => .destructive
  | _ => .default

/-- `getToastTitle` from use-notifications.ts; `t` is the injected translation
function. -/
def getToastTitle (type : String) (t : String → String) : String :=
  match type with
  | "record_created" => t "newRecord"
  | "record_approved" => t "recordApproved"
  | "record_rejected" => t "recordRejected"
  | "batch_approved" => t "batchApproved"
  | "batch_rejected" => t "batchRejected"
  | "batch_extracted" => t "batchExtracted"
  | "export_complete" => t "exportComplete"
  | "sheets_sync_complete" => t "sheetsSynced"
  | "error" => t "error"
  | _ => t "default"

/-- JavaScript `s.startsWith(p)`: the characters of `p` are an initial
segment of the characters of `s`. -/
def jsStartsWith (s p : String) : Bool :=
  s.data.take p.data.length == p.data

/-- Bound of the notification list: `.slice(0, 50)` in use-notifications.ts. -/
def notificationBufferLimit : Nat := 50

/-- Heartbeat period hard-coded in `connect`: `setInterval(..., 30000)`. -/
def heartbeatIntervalMs : Nat := 30000

/-- Client-side state touched by the notification hook: the connection flag,
the bounded notification list and the react-query cache. -/
structure ClientState where
  isConnected : Bool
  notifications : List Notification
  cache : QueryCache
deriving DecidableEq, Repr

/-- `handleMessage` from use-notifications.ts.  `parsed` is the outcome of
`JSON.parse(event.data)` (`none` = the parse threw, in which case the catch
block only logs).  Returns the updated client state together with the toasts
shown. -/
def handleMessage (t : String → String) (parsed : Option Notification)
    (st : ClientState) : ClientState × List Toast :=
  match parsed with
  | none => (st, [])
  | some n =>
    if n.type = "pong" then (st, [])
    else
      let notifications := (n :: st.notifications).take notificationBufferLimit
      let shown : Toast :=
        { title := getToastTitle n.type t
          description := n.message
          variant := getToastVariant n.type }
      let cache := st.cache
      let cache :=
        if jsStartsWith n.type "record_" || jsStartsWith n.type "batch_" then
          invalidateStatsQuery (invalidateRecordsQuery cache)
        else cache
      let cache :=
        if n.type = "export_complete" || n.type = "sheets_sync_complete" then
          invalidateRecordsQuery cache
        else cache
      ({ st with notifications := notifications, cache := cache }, [shown])

/-- `WebSocket.readyState` constants. -/
inductive WsReadyState
  | CONNECTING
  | OPEN
  | CLOSING
  | CLOSED
deriving DecidableEq, Repr

/-- `sendMessage` from use-notifications.ts: the frame is sent only when a
socket exists and its readyState is OPEN; otherwise the call does nothing (no
queueing, no error).  The result is the list of frames actually sent. -/
def sendMessage (ws : Option WsReadyState) (message : String) : List String :=
  match ws with
  | some .OPEN => [message]
  | _ => []

/-- The configuration the connection logic of use-notifications.ts reads
(options of the hook, already resolved to their effective values). -/
structure ConnMgrConfig where
  enabled : Bool
  autoReconnect : Bool
  reconnectInterval : Nat
  maxReconnectAttempts : Nat
deriving DecidableEq, Repr

/-- Observable state of the connection logic: the `reconnectAttempts` ref, the
number of sockets constructed so far (`new WebSocket(...)` calls), and whether
a `connect` call is pending (either the initial mount effect or a scheduled
reconnect timeout). -/
structure ConnMgrState where
  reconnectAttempts : Nat
  socketsOpened : Nat
  pendingConnect : Bool
deriving DecidableEq, Repr

/-- One invocation of `connect` (use-notifications.ts): bail out when the hook
is disabled or the retry budget is exhausted; otherwise construct a socket.
The Bool reports whether a socket was constructed. -/
def connectAttempt (cfg : ConnMgrConfig) (s : ConnMgrState) :
    ConnMgrState × Bool :=
  if !cfg.enabled then ({ s with pendingConnect := false }, false)
  else if cfg.maxReconnectAttempts ≤ s.reconnectAttempts then
    ({ s with pendingConnect := false }, false)
  else
    ({ s with pendingConnect := false, socketsOpened := s.socketsOpened + 1 },
     true)

/-- The `onclose` handler when the connection attempt failed (the socket never
reached OPEN, so `onopen` never reset the counter): with `autoReconnect` on and
retries remaining, bump the counter and schedule another `connect`. -/
def oncloseFailed (cfg : ConnMgrConfig) (s : ConnMgrState) : ConnMgrState :=
  if cfg.autoReconnect && s.reconnectAttempts < cfg.maxReconnectAttempts then
    { s with reconnectAttempts := s.reconnectAttempts + 1,
             pendingConnect := true }
  else s

/-- One connect/close cycle in the run where the server is unreachable: the
pending `connect` fires; if it constructed a socket, the connection fails and
`onclose` runs. -/
def failedCycle (cfg : ConnMgrConfig) (s : ConnMgrState) : ConnMgrState :=
  let r := connectAttempt cfg s
  if r.2 then oncloseFailed cfg r.1 else r.1

/-- The whole run under an unreachable server: keep firing the pending
`connect` until none is scheduled.  `fuel` bounds the iteration (the run is
shown to reach a fixpoint within `maxReconnectAttempts + 1` cycles). -/
def failedRun (cfg : ConnMgrConfig) : Nat → ConnMgrState → ConnMgrState
  | 0, s => s
  | fuel + 1, s =>
    if s.pendingConnect then failedRun cfg fuel (failedCycle cfg s) else s

/-- State at mount: the effect calls `connect` once, no socket yet, counter 0. -/
def initialConnState : ConnMgrState :=
  { reconnectAttempts := 0, socketsOpened := 0, pendingConnect := true }

/-- `UseNotificationsOptions` from use-notifications.ts: the only
externally-settable knobs of the hook (`none` = the caller omitted the field). -/
structure UseNotificationsOptions where
  enabled : Option Bool := none
  autoReconnect : Option Bool := none
  reconnectInterval : Option Nat := none
  maxReconnectAttempts : Option Nat := none
deriving DecidableEq, Repr

/-- Every numeric parameter the hook actually runs with. -/
structure ResolvedNotificationConfig where
  enabled : Bool
  autoReconnect : Bool
  reconnectInterval : Nat
  maxReconnectAttempts : Nat
  heartbeatMs : Nat
  bufferLimit : Nat
deriving DecidableEq, Repr

/-- The destructuring-with-defaults at the top of `useNotifications` plus the
two constants hard-wired in its body (heartbeat period, buffer bound). -/
def resolveOptions (o : UseNotificationsOptions) : ResolvedNotificationConfig :=
  { enabled := o.enabled.getD true
    autoReconnect := o.autoReconnect.getD true
    reconnectInterval := o.reconnectInterval.getD 3000
    maxReconnectAttempts := o.maxReconnectAttempts.getD 5
    heartbeatMs := heartbeatIntervalMs
    bufferLimit := notificationBufferLimit }

/-- The options the `NotificationProvider` component passes to the hook. -/
def notificationProviderOptions : UseNotificationsOptions :=
  { enabled := some true
    autoReconnect := some true
    reconnectInterval := some 3000
    maxReconnectAttempts := some 10 }

/-- ECMAScript whitespace as used by `String.prototype.trim`: WhiteSpace and
LineTerminator code points. -/
def isJsWhitespace (c : Char) : Bool :=
  c = ' ' || c = '\t' || c = '\n' || c = '\r' ||
  c = Char.ofNat 11 || c = Char.ofNat 12 || c = Char.ofNat 0xa0 ||
  c = Char.ofNat 0x1680 ||
  (Char.ofNat 0x2000 ≤ c && c ≤ Char.ofNat 0x200a) ||
  c = Char.ofNat 0x2028 || c = Char.ofNat 0x2029 ||
  c = Char.ofNat 0x202f || c = Char.ofNat 0x205f ||
  c = Char.ofNat 0x3000 || c = Char.ofNat 0xfeff

/-- JavaScript `reason.trim()`. -/
def jsTrim (s : String) : String :=
  String.mk
    (((s.data.dropWhile isJsWhitespace).reverse.dropWhile
        isJsWhitespace).reverse)

/-- Outcome of one of the reviewed UI handlers: the toasts it showed, whether
it closed its dialog, and whether it invoked its completion callback. -/
structure UiOutcome where
  toasts : List Toast
  dialogClosed : Bool
  onCompleteCalled : Bool
  exportPrompt : Option Nat
deriving DecidableEq, Repr

/-- `handleReject` from rejection-dialog.tsx.  `response` is the outcome of
`reject.mutateAsync` (`Except.error` = it threw).  The second component is the
reject request actually issued — `none` when validation stopped the handler
before any request. -/
def handleReject (recordId : String) (reason : String)
    (response : Except Unit Unit) : UiOutcome × Option (String × String) :=
  if jsTrim reason = "" then
    ({ toasts := [⟨"Reason Required", "Please provide a reason for rejection.",
          .destructive⟩],
       dialogClosed := false, onCompleteCalled := false, exportPrompt := none },
     none)
  else
    match response with
    | .error _ =>
      ({ toasts := [⟨"Rejection Failed",
            "Failed to reject the record. Please try again.", .destructive⟩],
         dialogClosed := false, onCompleteCalled := false,
         exportPrompt := none },
       some (recordId, reason))
    | .ok _ =>
      ({ toasts := [⟨"Record Rejected",
            "The record has been rejected and will not be exported.",
            .default⟩],
         dialogClosed := true, onCompleteCalled := true, exportPrompt := none },
       some (recordId, reason))

/-- The filter the batch-actions component applies to the selection before the
approve call: keep an id only when a record with that id is present and its
status is PENDING or EDITED. -/
def eligibleForApprove (selectedIds : List String)
    (records : List RecordRow) : List String :=
  selectedIds.filter fun id =>
    match records.find? (fun r => r.id == id) with
    | some r => r.status == .pending || r.status == .edited
    | none => false

/-- The identical filter guarding the reject call. -/
def eligibleForReject (selectedIds : List String)
    (records : List RecordRow) : List String :=
  selectedIds.filter fun id =>
    match records.find? (fun r => r.id == id) with
    | some r => r.status == .pending || r.status == .edited
    | none => false

/-- Body of the `approve-batch` endpoint's response as the component reads it. -/
structure BatchApproveResult where
  approved_count : Nat
  error_count : Nat
deriving DecidableEq, Repr

/-- Body of the `reject-batch` endpoint's response as the component reads it. -/
structure BatchRejectResult where
  rejected_count : Nat
  error_count : Nat
deriving DecidableEq, Repr

/-- `handleBatchApprove` from the batch-actions component.  `t0` renders plain
translation keys, `t1` renders count-bearing ones.  `eligible` is the already
filtered id list; `response` is the outcome of `batchApprove.mutateAsync`
(`Except.error` = non-ok HTTP status or network failure, caught below).  The
second component is the request body issued (ids and optional notes), `none`
when no request was made. -/
def handleBatchApprove (t0 : String → String) (t1 : String → Nat → String)
    (eligible : List String) (notes : String)
    (response : Except Unit BatchApproveResult)
    (hasExportPrompt : Bool) :
    UiOutcome × Option (List String × Option String) :=
  if eligible.length = 0 then
    ({ toasts := [], dialogClosed := false, onCompleteCalled := false,
       exportPrompt := none }, none)
  else
    let request := some (eligible, if notes = "" then none else some notes)
    match response with
    | .error _ =>
      ({ toasts := [⟨t0 "approvalFailed", t0 "approvalError", .destructive⟩],
         dialogClosed := false, onCompleteCalled := false,
         exportPrompt := none }, request)
    | .ok result =>
      ({ toasts :=
           [⟨t0 "approvalComplete", t1 "recordsApproved" result.approved_count,
              .success⟩] ++
           (if 0 < result.error_count then
              [⟨t0 "someFailed", t1 "failedCount" result.error_count,
                 .destructive⟩]
            else []),
         dialogClosed := true, onCompleteCalled := true,
         exportPrompt :=
           if 0 < result.approved_count && hasExportPrompt then
             some result.approved_count
           else none }, request)

/-- `handleBatchReject` from the batch-actions component: an empty/whitespace
reason stops the handler with a destructive toast before any request; otherwise
the request carries the filtered ids and the single uniform reason. -/
def handleBatchReject (t0 : String → String) (t1 : String → Nat → String)
    (eligible : List String) (reason : String)
    (response : Except Unit BatchRejectResult) :
    UiOutcome × Option (List String × String) :=
  if jsTrim reason = "" then
    ({ toasts := [⟨t0 "reasonRequired", t0 "reasonRequiredMsg", .destructive⟩],
       dialogClosed := false, onCompleteCalled := false, exportPrompt := none },
     none)
  else
    match response with
    | .error _ =>
      ({ toasts := [⟨t0 "rejectionFailed", t0 "rejectionError", .destructive⟩],
         dialogClosed := false, onCompleteCalled := false,
         exportPrompt := none }, some (eligible, reason))
    | .ok result =>
      ({ toasts :=
           [⟨t0 "rejectionComplete", t1 "recordsRejected" result.rejected_count,
              .default⟩] ++
           (if 0 < result.error_count then
              [⟨t0 "someFailed", t1 "failedCount" result.error_count,
                 .destructive⟩]
            else []),
         dialogClosed := true, onCompleteCalled := true,
         exportPrompt := none }, some (eligible, reason))

/-- The per-record actions column of records-table.tsx: approve, reject and
edit buttons are rendered exactly when the row's status is PENDING or EDITED. -/
def reviewActionsOffered (s : ExtractionStatus) : Bool :=
  s == .pending || s == .edited

/-- Error taxonomy of the design document's mutating operations. -/
inductive TransitionError
  | notFound
  | invalidTransition
  | validationFailed
deriving DecidableEq, Repr

/-- Eligibility of an id against the current store: a record with this id
exists and its status is pending or edited. -/
def eligibleInDb (db : List RecordRow) (id : String) : Bool :=
  match db.find? (fun r => r.id == id) with
  | some r => r.status == .pending || r.status == .edited
  | none => false

/-- Modelled from the spec: the backend service is not among the frontend
sources, so `applyTransition(recordId, approve, ...)` is modelled from §4.1 of
the design document — the record must exist (else NotFound) and approve is
legal only from `pending` or `edited` (else InvalidTransition); on success the
record's status becomes `approved`. -/
def applyApprove (db : List RecordRow) (id : String) :
    Except TransitionError (List RecordRow) :=
  match db.find? (fun r => r.id == id) with
  | none => .error .notFound
  | some r =>
    if r.status == .pending || r.status == .edited then
      .ok (db.map fun x =>
        if x.id == id then { x with status := .approved } else x)
    else .error .invalidTransition

/-- Result of the modelled batch endpoint, shaped after §4.2: counts, the ids
that succeeded, the per-item errors, and the updated store. -/
structure ApplyBatchResult where
  approvedCount : Nat
  errorCount : Nat
  succeededIds : List String
  errors : List (String × TransitionError)
  db : List RecordRow
deriving DecidableEq, Repr

/-- One per-item step of the modelled batch loop: a successful transition bumps
`approvedCount`, a caught failure lands in `errors`; processing continues
either way. -/
def batchApproveStep (acc : ApplyBatchResult) (id : String) :
    ApplyBatchResult :=
  match applyApprove acc.db id with
  | .ok db' =>
    { acc with approvedCount := acc.approvedCount + 1,
               succeededIds := acc.succeededIds ++ [id], db := db' }
  | .error e =>
    { acc with errorCount := acc.errorCount + 1,
               errors := acc.errors ++ [(id, e)] }

/-- Modelled from the spec: `applyBatch(ids, approve, ...)` of §4.2 — filter
the ids down to those currently eligible, then apply §4.1's transition to each
eligible id in order, isolating per-item failures (no early abort). -/
def applyBatchApprove (db : List RecordRow) (ids : List String) :
    ApplyBatchResult :=
  (ids.filter (eligibleInDb db)).foldl batchApproveStep
    { approvedCount := 0, errorCount := 0, succeededIds := [], errors := [],
      db := db }

/-- A cache with cached payloads in both entries and nothing marked stale. -/
def freshCache : QueryCache :=
  { records := { payload := some [("r1", "alice")], invalidated := false }
    stats := { payload := some [("total", "3")], invalidated := false } }

/-- A concrete client state used to evaluate the handler on concrete events. -/
def demoClientState : ClientState :=
  { isConnected := true, notifications := [], cache := freshCache }

/-- A concrete event of the given type. -/
def demoEvent (ty : String) : Notification :=
  { type := ty, id := "evt-1", timestamp := "2026-01-01T00:00:00Z",
    data := [("record_id", "r1")], message := "a record changed" }

/-- The store of the design document's batch scenario: `r2` is already
approved, `r1` and `r3` are pending. -/
def demoDb : List RecordRow :=
  [⟨"r1", .pending⟩, ⟨"r2", .approved⟩, ⟨"r3", .pending⟩]

/-- A trimmed-to-nothing reason: all of its characters are JS whitespace. -/
theorem jsTrim_eq_empty_of_all_ws (s : String)
    (h : ∀ c ∈ s.data, isJsWhitespace c) : jsTrim s = "" := by
  have hd : s.data.dropWhile isJsWhitespace = [] :=
    List.dropWhile_eq_nil_iff.mpr h
  simp [jsTrim, hd]

/-- Once no `connect` is pending, the reconnection run is over: no amount of
further time opens another socket. -/
theorem failedRun_fixpoint (cfg : ConnMgrConfig) (fuel : Nat)
    (s : ConnMgrState) (h : s.pendingConnect = false) :
    failedRun cfg fuel s = s := by
  cases fuel with
  | zero => rfl
  | succ f => simp [failedRun, h]

/-- Unfolding of one pending cycle of the run. -/
theorem failedRun_succ_pending (cfg : ConnMgrConfig) (f : Nat)
    (s : ConnMgrState) (h : s.pendingConnect = true) :
    failedRun cfg (f + 1) s = failedRun cfg f (failedCycle cfg s) := by
  simp [failedRun, h]

/-- A cycle with the retry budget exhausted: the `connect` guard returns
before constructing a socket. -/
theorem failedCycle_done (N r a o : Nat) (h : N ≤ a) :
    failedCycle ⟨true, true, r, N⟩ ⟨a, o, true⟩ = ⟨a, o, false⟩ := by
  simp [failedCycle, connectAttempt, oncloseFailed, h]

/-- A cycle with retries remaining: a socket is constructed, the connection
fails, and `onclose` bumps the counter and schedules the next `connect`. -/
theorem failedCycle_retry (N r a o : Nat) (h : a < N) :
    failedCycle ⟨true, true, r, N⟩ ⟨a, o, true⟩ = ⟨a + 1, o + 1, true⟩ := by
  simp [failedCycle, connectAttempt, oncloseFailed, h, Nat.not_le.mpr h]

/-- Core of the reconnection analysis: from a state with `a` failed attempts
recorded and a `connect` pending, the run settles at counter `N`, `N - a`
further sockets opened, nothing pending. -/
theorem failedRun_settles (N r : Nat) :
    ∀ (k a o fuel : Nat), a + k = N → k + 1 ≤ fuel →
      failedRun ⟨true, true, r, N⟩ fuel ⟨a, o, true⟩ = ⟨N, o + k, false⟩ := by
  intro k
  induction k with
  | zero =>
    intro a o fuel ha hf
    obtain ⟨f, rfl⟩ : ∃ f, fuel = f + 1 := ⟨fuel - 1, by omega⟩
    have haN : a = N := by omega
    subst haN
    rw [failedRun_succ_pending _ _ _ rfl, failedCycle_done a r a o le_rfl,
        failedRun_fixpoint _ _ _ rfl]
    rfl
  | succ k ih =>
    intro a o fuel ha hf
    obtain ⟨f, rfl⟩ : ∃ f, fuel = f + 1 := ⟨fuel - 1, by omega⟩
    rw [failedRun_succ_pending _ _ _ rfl, failedCycle_retry N r a o (by omega),
        ih (a + 1) (o + 1) f (by omega) (by omega)]
    congr 1
    omega

/-- Each item of the modelled batch loop lands in exactly one of the two
counters. -/
theorem batchApprove_foldl_counts (l : List String) :
    ∀ acc : ApplyBatchResult,
      (l.foldl batchApproveStep acc).approvedCount
          + (l.foldl batchApproveStep acc).errorCount
        = acc.approvedCount + acc.errorCount + l.length := by
  induction l with
  | nil => intro acc; simp
  | cons x xs ih =>
    intro acc
    simp only [List.foldl_cons, List.length_cons]
    rw [ih]
    cases hstep : applyApprove acc.db x with
    | ok db' => simp [batchApproveStep, hstep]; omega
    | error e => simp [batchApproveStep, hstep]; omega

/-- Claim C5: a record is eligible for review (offered approve and reject) if
and only if its status is `pending` or `edited`; the records-table action
predicate and the batch filters use exactly this predicate, so records in any
other status are excluded. -/
theorem C5_eligible_for_review :
    (∀ s, reviewActionsOffered s = true ↔ (s = .pending ∨ s = .edited)) ∧
    (∀ ids records id,
      id ∈ eligibleForApprove ids records ↔
        (id ∈ ids ∧ ∃ r, records.find? (fun x => x.id == id) = some r ∧
          (r.status = .pending ∨ r.status = .edited))) ∧
    eligibleForReject = eligibleForApprove := by
  refine ⟨?_, ?_, rfl⟩
  · intro s
    cases s <;> decide
  · intro ids records id
    simp only [eligibleForApprove, List.mem_filter]
    refine and_congr_right fun _ => ?_
    cases h : records.find? (fun x => x.id == id) with
    | none => simp [h]
    | some r => simp [h, Bool.or_eq_true, beq_iff_eq]

/-- Claim C7: every non-pong event is put at the front of the notification
list, the list is bounded by its 50 most recent entries (oldest dropped), and
pong messages are filtered out before the buffer and never appear in it. -/
theorem C7_notification_buffer :
    (∀ (t : String → String) (n : Notification) (st : ClientState),
      n.type ≠ "pong" →
        (handleMessage t (some n) st).1.notifications
            = (n :: st.notifications).take 50 ∧
        ((handleMessage t (some n) st).1.notifications).head? = some n ∧
        ((handleMessage t (some n) st).1.notifications).length ≤ 50) ∧
    (∀ (t : String → String) (n : Notification) (st : ClientState),
      n.type = "pong" → handleMessage t (some n) st = (st, [])) ∧
    (∀ (t : String → String) (parsed : Option Notification) (st : ClientState),
      (∀ m ∈ st.notifications, m.type ≠ "pong") →
        ∀ m ∈ (handleMessage t parsed st).1.notifications, m.type ≠ "pong") := by
  refine ⟨?_, ?_, ?_⟩
  · intro t n st h
    have hmain : (handleMessage t (some n) st).1.notifications
        = (n :: st.notifications).take 50 := by
      simp [handleMessage, if_neg h, notificationBufferLimit]
    refine ⟨hmain, ?_, ?_⟩
    · rw [hmain]
      rfl
    · rw [hmain]
      exact List.length_take_le _ _
  · intro t n st h
    simp [handleMessage, h]
  · intro t parsed st hbuf m hm
    match parsed with
    | none => exact hbuf m hm
    | some n =>
      by_cases h : n.type = "pong"
      · simp only [handleMessage, if_pos h] at hm
        exact hbuf m hm
      · simp only [handleMessage, if_neg h] at hm
        have hm' : m ∈ n :: st.notifications := List.mem_of_mem_take hm
        rcases List.mem_cons.mp hm' with rfl | hm''
        · exact h
        · exact hbuf m hm''

/-- Claim C9: `sendMessage` on a connection that is absent or in any readyState
other than OPEN sends nothing — the call is a silent no-op returning no frame
and raising no error. -/
theorem C9_sendMessage_silent_noop (ws : Option WsReadyState)
    (message : String) (h : ws ≠ some WsReadyState.OPEN) :
    sendMessage ws message = [] := by
  match ws with
  | none => rfl
  | some WsReadyState.CONNECTING => rfl
  | some WsReadyState.OPEN => exact absurd rfl h
  | some WsReadyState.CLOSING => rfl
  | some WsReadyState.CLOSED => rfl

/-- Witness for C9 at a concrete non-OPEN state. -/
theorem C9_witness :
    (some WsReadyState.CONNECTING ≠ some WsReadyState.OPEN) ∧
    sendMessage (some WsReadyState.CONNECTING) "ping" = [] :=
  ⟨by decide,
   C9_sendMessage_silent_noop (some WsReadyState.CONNECTING) "ping"
     (by decide)⟩

/-- Claim C10: a wire message whose body is not valid JSON (the parse throws)
leaves the handler normally with the state untouched and no toast; moreover no
handled message ever changes the connection flag. -/
theorem C10_invalid_json_harmless :
    (∀ (t : String → String) (st : ClientState),
        handleMessage t none st = (st, [])) ∧
    (∀ (t : String → String) (parsed : Option Notification) (st : ClientState),
        (handleMessage t parsed st).1.isConnected = st.isConnected) := by
  refine ⟨fun t st => rfl, fun t parsed st => ?_⟩
  match parsed with
  | none => rfl
  | some n =>
    by_cases h : n.type = "pong"
    · simp [handleMessage, h]
    · simp [handleMessage, h]

/-- Claim C1 counterexample: the claim says a `sync_complete` event invalidates
both queries, and an `export_complete` event invalidates the stats query;
handling a concrete `sync_complete` event invalidates neither query (the code
matches `sheets_sync_complete`, not `sync_complete`), and a concrete
`export_complete` event leaves the stats query untouched. -/
theorem C1_counterexample :
    (handleMessage (fun k => k) (some (demoEvent "sync_complete"))
        demoClientState).1.cache.records.invalidated = false ∧
    (handleMessage (fun k => k) (some (demoEvent "sync_complete"))
        demoClientState).1.cache.stats.invalidated = false ∧
    (handleMessage (fun k => k) (some (demoEvent "export_complete"))
        demoClientState).1.cache.stats.invalidated = false := by
  decide

/-- Claim C1 (amended): an event whose type starts with `record_` or `batch_`
invalidates both the record-list and the statistics query; an event of type
`export_complete` or `sheets_sync_complete` invalidates only the record-list
query, leaving the stats mark as it was; every other type invalidates nothing;
and no event's payload is ever written into either cache entry. -/
theorem C1_amended :
    (∀ (t : String → String) (parsed : Option Notification) (st : ClientState),
      (handleMessage t parsed st).1.cache.records.payload
          = st.cache.records.payload ∧
      (handleMessage t parsed st).1.cache.stats.payload
          = st.cache.stats.payload) ∧
    (∀ (t : String → String) (n : Notification) (st : ClientState),
      (jsStartsWith n.type "record_" = true ∨
       jsStartsWith n.type "batch_" = true) →
        (handleMessage t (some n) st).1.cache.records.invalidated = true ∧
        (handleMessage t (some n) st).1.cache.stats.invalidated = true) ∧
    (∀ (t : String → String) (n : Notification) (st : ClientState),
      (n.type = "export_complete" ∨ n.type = "sheets_sync_complete") →
        (handleMessage t (some n) st).1.cache.records.invalidated = true ∧
        (handleMessage t (some n) st).1.cache.stats.invalidated
            = st.cache.stats.invalidated) ∧
    (∀ (t : String → String) (n : Notification) (st : ClientState),
      jsStartsWith n.type "record_" = false →
      jsStartsWith n.type "batch_" = false →
      n.type ≠ "export_complete" → n.type ≠ "sheets_sync_complete" →
        (handleMessage t (some n) st).1.cache = st.cache) := by
  refine ⟨?_, ?_, ?_, ?_⟩
  · intro t parsed st
    match parsed with
    | none => exact ⟨rfl, rfl⟩
    | some n =>
      by_cases hp : n.type = "pong"
      · simp [handleMessage, hp]
      · simp only [handleMessage, if_neg hp]
        constructor <;>
          · split <;> split <;>
              simp [invalidateRecordsQuery, invalidateStatsQuery]
  · intro t n st h
    have hp : n.type ≠ "pong" := by
      rintro hpe
      rw [hpe] at h
      revert h
      decide
    have h1 : (jsStartsWith n.type "record_" ||
        jsStartsWith n.type "batch_") = true := by
      rcases h with h | h <;> simp [h]
    simp only [handleMessage, if_neg hp]
    rw [if_pos h1]
    constructor <;> split <;>
      simp [invalidateRecordsQuery, invalidateStatsQuery]
  · intro t n st h
    have hp : n.type ≠ "pong" := by
      rcases h with h | h <;> rw [h] <;> decide
    have h1 : (jsStartsWith n.type "record_" ||
        jsStartsWith n.type "batch_") = false := by
      rcases h with h | h <;> rw [h] <;> decide
    have h2 : (decide (n.type = "export_complete") ||
        decide (n.type = "sheets_sync_complete")) = true := by
      rcases h with h | h <;> simp [h]
    have hn1 : ¬((jsStartsWith n.type "record_" ||
        jsStartsWith n.type "batch_") = true) := by
      simp [h1]
    simp only [handleMessage, if_neg hp]
    rw [if_neg hn1, if_pos h2]
    simp [invalidateRecordsQuery]
  · intro t n st h1 h2 h3 h4
    by_cases hp : n.type = "pong"
    · simp [handleMessage, hp]
    · have hn1 : ¬((jsStartsWith n.type "record_" ||
          jsStartsWith n.type "batch_") = true) := by
        simp [h1, h2]
      have hn2 : ¬((decide (n.type = "export_complete") ||
          decide (n.type = "sheets_sync_complete")) = true) := by
        simp [h3, h4]
      simp only [handleMessage, if_neg hp]
      rw [if_neg hn1, if_neg hn2]

/-- Claim C2 counterexample: with `maxReconnectAttempts = 1` and a server that
never accepts, the run opens one socket in total — zero new openings after the
initial one, not the one opening the claim demands — while the retry counter
ends at 1. -/
theorem C2_counterexample :
    (failedRun ⟨true, true, 3000, 1⟩ 10 initialConnState).socketsOpened = 1 ∧
    (failedRun ⟨true, true, 3000, 1⟩ 10 initialConnState).socketsOpened
        ≠ 1 + 1 ∧
    (failedRun ⟨true, true, 3000, 1⟩ 10 initialConnState).reconnectAttempts
        = 1 := by
  decide

/-- Claim C2 (amended): with `maxReconnectAttempts = N` and no connection ever
succeeding, the run settles with N sockets opened in total — the initial one
plus N − 1 reconnection openings — the retry counter at N and no reconnect
pending; from that state no amount of further time opens another socket. -/
theorem C2_amended (N r fuel : Nat) (hfuel : N + 1 ≤ fuel) :
    failedRun ⟨true, true, r, N⟩ fuel initialConnState = ⟨N, N, false⟩ ∧
    (∀ extra, failedRun ⟨true, true, r, N⟩ extra ⟨N, N, false⟩
        = ⟨N, N, false⟩) := by
  constructor
  · have := failedRun_settles N r N 0 0 fuel (by omega) (by omega)
    simpa [initialConnState] using this
  · intro extra
    exact failedRun_fixpoint _ _ _ rfl

/-- Witness for C2 (amended) at N = 3. -/
theorem C2_witness :
    (3 + 1 ≤ 4) ∧
    failedRun ⟨true, true, 3000, 3⟩ 4 initialConnState = ⟨3, 3, false⟩ :=
  ⟨by decide, (C2_amended 3 3000 4 (by decide)).1⟩

/-- Claim C3 counterexample: the hook's default for `maxReconnectAttempts` is
5, not the 10 the claim states (10 is what the `NotificationProvider` passes
explicitly, not the hook default). -/
theorem C3_counterexample :
    (resolveOptions {}).maxReconnectAttempts = 5 ∧
    (resolveOptions {}).maxReconnectAttempts ≠ 10 := by
  decide

/-- Claim C3 (amended): the reconnect interval and the max reconnect attempts
are configurable options of the hook with defaults 3000 ms and 5 attempts
(the provider passes 10 explicitly); the heartbeat interval and the
notification buffer bound are fixed at 30000 ms and 50 entries for every
choice of options — the options record has no field for them. -/
theorem C3_amended :
    resolveOptions {} = ⟨true, true, 3000, 5, 30000, 50⟩ ∧
    (∀ n, (resolveOptions
        { reconnectInterval := some n }).reconnectInterval = n) ∧
    (∀ n, (resolveOptions
        { maxReconnectAttempts := some n }).maxReconnectAttempts = n) ∧
    (∀ b, (resolveOptions { enabled := some b }).enabled = b) ∧
    (∀ b, (resolveOptions { autoReconnect := some b }).autoReconnect = b) ∧
    (∀ o, (resolveOptions o).heartbeatMs = 30000 ∧
          (resolveOptions o).bufferLimit = 50) ∧
    (resolveOptions notificationProviderOptions).maxReconnectAttempts = 10 := by
  refine ⟨by decide, fun n => rfl, fun n => rfl, fun b => rfl, fun b => rfl,
    fun o => ⟨rfl, rfl⟩, by decide⟩

/-- Claim C4: a rejection reason that is empty or all whitespace fails
validation on both the single-record path and the batch path — each handler
stops with the destructive reason-required toast and issues no request,
whatever the server would have answered. -/
theorem C4_whitespace_reason_fails_validation
    (recordId : String) (eligible : List String) (reason : String)
    (t0 : String → String) (t1 : String → Nat → String)
    (respS : Except Unit Unit) (respB : Except Unit BatchRejectResult)
    (h : ∀ c ∈ reason.data, isJsWhitespace c) :
    (handleReject recordId reason respS).2 = none ∧
    (handleReject recordId reason respS).1
        = ⟨[⟨"Reason Required", "Please provide a reason for rejection.",
             .destructive⟩], false, false, none⟩ ∧
    (handleBatchReject t0 t1 eligible reason respB).2 = none ∧
    (handleBatchReject t0 t1 eligible reason respB).1
        = ⟨[⟨t0 "reasonRequired", t0 "reasonRequiredMsg", .destructive⟩],
           false, false, none⟩ := by
  have ht : jsTrim reason = "" := jsTrim_eq_empty_of_all_ws reason h
  refine ⟨?_, ?_, ?_, ?_⟩ <;> simp [handleReject, handleBatchReject, ht]

/-- Witness for C4 at the concrete whitespace-only reason of a space and a
tab. -/
theorem C4_witness :
    (∀ c ∈ (" \t " : String).data, isJsWhitespace c) ∧
    (handleReject "r1" " \t " (.ok ())).2 = none ∧
    (handleBatchReject (fun k => k) (fun k _ => k) ["r1", "r2"] " \t "
        (.ok ⟨0, 0⟩)).2 = none := by
  have H := C4_whitespace_reason_fails_validation "r1" ["r1", "r2"] " \t "
    (fun k => k) (fun k _ => k) (.ok ()) (.ok ⟨0, 0⟩) (by decide)
  exact ⟨by decide, H.1, H.2.2.1⟩

/-- Claim C6: the ids a batch approve processes are exactly the selected ids
whose record is currently pending or edited — the client filter and the
(spec-modelled) server-side re-filter agree on the predicate, ineligible ids
are dropped before processing and therefore contribute to neither counter, and
the design document's scenario over `[r1, r2, r3]` with `r2` already approved
yields approvedCount 2 and errorCount 0 with `r2` excluded. -/
theorem C6_batch_approve_scope :
    (∀ records selected,
      eligibleForApprove selected records
          = selected.filter (eligibleInDb records)) ∧
    (∀ db ids, applyBatchApprove db ids
          = applyBatchApprove db (ids.filter (eligibleInDb db))) ∧
    (∀ db ids, (applyBatchApprove db ids).approvedCount
          + (applyBatchApprove db ids).errorCount
        = (ids.filter (eligibleInDb db)).length) ∧
    (applyBatchApprove demoDb ["r1", "r2", "r3"]).approvedCount = 2 ∧
    (applyBatchApprove demoDb ["r1", "r2", "r3"]).errorCount = 0 ∧
    (applyBatchApprove demoDb ["r1", "r2", "r3"]).succeededIds
        = ["r1", "r3"] := by
  refine ⟨fun records selected => rfl, ?_, ?_, by decide, by decide, by decide⟩
  · intro db ids
    unfold applyBatchApprove
    rw [List.filter_filter]
    simp only [Bool.and_self]
  · intro db ids
    have := batchApprove_foldl_counts (ids.filter (eligibleInDb db))
      ⟨0, 0, [], [], db⟩
    simpa [applyBatchApprove] using this

/-- Claim C8: a batch response that arrives with HTTP success but a positive
error count still runs the success path to completion — the dialog closes, the
completion callback fires, and the per-item failures surface only as the
aggregate pair of toasts (N approved/rejected, M failed); on both the approve
and the reject path. -/
theorem C8_batch_errors_not_fatal (t0 : String → String)
    (t1 : String → Nat → String) (eligible : List String)
    (notes reason : String) (resA : BatchApproveResult)
    (resR : BatchRejectResult) (prompt : Bool)
    (hne : eligible ≠ []) (hA : 0 < resA.error_count)
    (hR : 0 < resR.error_count) (hreason : jsTrim reason ≠ "") :
    ((handleBatchApprove t0 t1 eligible notes (.ok resA)
        prompt).1.onCompleteCalled = true) ∧
    ((handleBatchApprove t0 t1 eligible notes (.ok resA)
        prompt).1.dialogClosed = true) ∧
    ((handleBatchApprove t0 t1 eligible notes (.ok resA) prompt).1.toasts
        = [⟨t0 "approvalComplete", t1 "recordsApproved" resA.approved_count,
             .success⟩,
           ⟨t0 "someFailed", t1 "failedCount" resA.error_count,
             .destructive⟩]) ∧
    ((handleBatchReject t0 t1 eligible reason
        (.ok resR)).1.onCompleteCalled = true) ∧
    ((handleBatchReject t0 t1 eligible reason (.ok resR)).1.dialogClosed
        = true) ∧
    ((handleBatchReject t0 t1 eligible reason (.ok resR)).1.toasts
        = [⟨t0 "rejectionComplete", t1 "recordsRejected" resR.rejected_count,
             .default⟩,
           ⟨t0 "someFailed", t1 "failedCount" resR.error_count,
             .destructive⟩]) := by
  have h0 : ¬(eligible.length = 0) := by
    simpa [List.length_eq_zero] using hne
  refine ⟨?_, ?_, ?_, ?_, ?_, ?_⟩ <;>
    simp [handleBatchApprove, handleBatchReject, h0, hA, hR, hreason]

/-- Witness for C8: one eligible id, a response of two successes and one
failure. -/
theorem C8_witness :
    ((["a"] : List String) ≠ []) ∧
    (0 < (⟨2, 1⟩ : BatchApproveResult).error_count) ∧
    ((handleBatchApprove (fun k => k) (fun k _ => k) ["a"] ""
        (.ok ⟨2, 1⟩) false).1.onCompleteCalled = true) ∧
    ((handleBatchReject (fun k => k) (fun k _ => k) ["a"] "duplicate"
        (.ok ⟨1, 1⟩)).1.onCompleteCalled = true) := by
  have H := C8_batch_errors_not_fatal (fun k => k) (fun k _ => k) ["a"] ""
    "duplicate" ⟨2, 1⟩ ⟨1, 1⟩ false (by decide) (by decide) (by decide)
    (by decide)
  exact ⟨by decide, by decide, H.1, H.2.2.2.1⟩
